import Mathlib

/-!
Verification of the Dynalytics data-collection annotation core.

The repository's frontend (React/Zustand, under
`src/data_collection/frontend/src`) is embedded directly: the Zustand
store of `store/useStore.js` becomes `StoreState` with one Lean function
per store action, and the event handlers of `App.jsx`, `TaggingMode.jsx`,
`ThankYouModal.jsx` and `MoveForm.jsx` become functions on that state.
The Python backend (`src/labeling/models.py`, `database.py`) and the
export engine are not present in the repository snapshot, so
`AnnotationStore`, `create_move`, `delete_move`, `list_moves`,
`list_frame_tags`, `mergeExport` and `runExport` are modelled from the
specification (sections 3, 4.1, 4.3 and 4.4); each such definition says
so in its doc comment.

Numbers: frame indices are `Int` (JavaScript numbers used as integers),
frame rates and millisecond timestamps are `ℚ` (exact arithmetic in
place of IEEE doubles; every formula proved here is division-and-product
algebra that does not depend on rounding).
-/

/-- Video record, fields as in `backend/README.md` (Data Models: Video). -/
structure Video where
  id : Nat
  filename : String
  path : String
  csv_path : String
  fps : ℚ
  total_frames : Nat
  duration_ms : ℚ
  uploaded_at : String
deriving DecidableEq, Repr

/-- Value of one contextual answer: a single choice or a set of choices
(spec section 3, Move contextual data). -/
inductive CtxValue where
  | single (choice : String)
  | multi (choices : List String)
deriving DecidableEq, Repr

/-- Move record, fields as in `backend/README.md` (Data Models: Move). -/
structure Move where
  id : Nat
  video_id : Nat
  frame_start : Int
  frame_end : Int
  timestamp_start_ms : ℚ
  timestamp_end_ms : ℚ
  move_type : String
  form_quality : Nat
  effort_level : Nat
  contextual_data : List (String × CtxValue)
  tags : List String
  description : String
  labeled_at : String
  frame_tag_count : Nat
deriving DecidableEq, Repr

/-- FrameTag record, fields as in `backend/README.md` (Data Models: Frame Tag). -/
structure FrameTag where
  id : Nat
  move_id : Nat
  frame_number : Int
  timestamp_ms : ℚ
  tag_type : String
  level : Nat
  locations : List String
  note : String
  tagged_at : String
deriving DecidableEq, Repr

/-- One contextual question of a move type (`MOVE_TYPE_QUESTIONS` entry in
`backend/README.md`). -/
structure QuestionDef where
  question : String
  multi_select : Bool
  options : List String
deriving DecidableEq, Repr

/-- The `/api/config` payload consumed by the frontend (`move_types`,
`move_type_questions`, body parts). -/
structure AppConfig where
  move_types : List String
  move_type_questions : List (String × List (String × QuestionDef))
  body_parts : List String
deriving DecidableEq, Repr

/-- UI mode of the session: `'define' or 'tagging'` in `store/useStore.js`. -/
inductive Mode where
  | define
  | tagging
deriving DecidableEq, Repr

/-- The Zustand store state, one field per field of `useStore` in
`src/data_collection/frontend/src/store/useStore.js`. -/
structure StoreState where
  currentVideo : Option Video
  videos : List Video
  moves : List Move
  currentMove : Option Move
  frameTags : List FrameTag
  currentFrame : Int
  isPlaying : Bool
  moveStart : Option Int
  moveEnd : Option Int
  mode : Mode
  showMoveForm : Bool
  showTagPopup : Bool
  tagPopupType : Option String
  config : Option AppConfig
deriving DecidableEq, Repr

/-- Initial store state (the initial values in `useStore.js`). -/
def initialStore : StoreState where
  currentVideo := none
  videos := []
  moves := []
  currentMove := none
  frameTags := []
  currentFrame := 0
  isPlaying := false
  moveStart := none
  moveEnd := none
  mode := Mode.define
  showMoveForm := false
  showTagPopup := false
  tagPopupType := none
  config := none

/-- Ordering of FrameTags by `frame_number`, the comparator
`(a, b) => a.frame_number - b.frame_number` of `addFrameTag` in `useStore.js`. -/
def tagsLe (a b : FrameTag) : Prop := a.frame_number ≤ b.frame_number

instance : DecidableRel tagsLe := fun a b =>
  inferInstanceAs (Decidable (a.frame_number ≤ b.frame_number))

instance : IsTotal FrameTag tagsLe := ⟨fun a b => le_total a.frame_number b.frame_number⟩

instance : IsTrans FrameTag tagsLe := ⟨fun _ _ _ hab hbc => le_trans hab hbc⟩

/-- Ordering of Moves by `frame_start` (spec section 4.1: `list_moves`
returns records ordered by `frame_start` ascending). -/
def movesLe (a b : Move) : Prop := a.frame_start ≤ b.frame_start

instance : DecidableRel movesLe := fun a b =>
  inferInstanceAs (Decidable (a.frame_start ≤ b.frame_start))

instance : IsTotal Move movesLe := ⟨fun a b => le_total a.frame_start b.frame_start⟩

instance : IsTrans Move movesLe := ⟨fun _ _ _ hab hbc => le_trans hab hbc⟩

/-- Store action `setCurrentVideo` of `useStore.js`. -/
def setCurrentVideo (v : Option Video) (s : StoreState) : StoreState :=
  { s with currentVideo := v }

/-- Store action `setCurrentMove` of `useStore.js`. -/
def setCurrentMove (m : Option Move) (s : StoreState) : StoreState :=
  { s with currentMove := m }

/-- Store action `addMove` of `useStore.js`. -/
def addMove (m : Move) (s : StoreState) : StoreState :=
  { s with moves := s.moves ++ [m] }

/-- Store action `removeMoveFromList` of `useStore.js`. -/
def removeMoveFromList (moveId : Nat) (s : StoreState) : StoreState :=
  { s with moves := s.moves.filter (fun m => m.id != moveId) }

/-- Store action `setFrameTags` of `useStore.js`. -/
def setFrameTags (l : List FrameTag) (s : StoreState) : StoreState :=
  { s with frameTags := l }

/-- Store action `addFrameTag` of `useStore.js`: appends the tag and sorts
the list by `frame_number`. -/
def addFrameTag (t : FrameTag) (s : StoreState) : StoreState :=
  { s with frameTags := List.insertionSort tagsLe (s.frameTags ++ [t]) }

/-- Store action `removeFrameTag` of `useStore.js`. -/
def removeFrameTag (tagId : Nat) (s : StoreState) : StoreState :=
  { s with frameTags := s.frameTags.filter (fun t => t.id != tagId) }

/-- Store action `setCurrentFrame` of `useStore.js`. -/
def setCurrentFrame (f : Int) (s : StoreState) : StoreState :=
  { s with currentFrame := f }

/-- Store action `setMoveStart` of `useStore.js`. -/
def setMoveStart (f : Int) (s : StoreState) : StoreState :=
  { s with moveStart := some f }

/-- Store action `setMoveEnd` of `useStore.js`: it stores the frame
unconditionally, there is no comparison against `moveStart`. -/
def setMoveEnd (f : Int) (s : StoreState) : StoreState :=
  { s with moveEnd := some f }

/-- Store action `clearMoveSelection` of `useStore.js`. -/
def clearMoveSelection (s : StoreState) : StoreState :=
  { s with moveStart := none, moveEnd := none }

/-- Store action `setMode` of `useStore.js`. -/
def setMode (m : Mode) (s : StoreState) : StoreState :=
  { s with mode := m }

/-- The `']'` key handler of `VideoPlayer.jsx`: `setMoveEnd(currentFrame)`,
invoked in every state with no guard. -/
def handleKeyMarkEnd (s : StoreState) : StoreState :=
  setMoveEnd s.currentFrame s

/-- The `'['` key handler of `VideoPlayer.jsx`: `setMoveStart(currentFrame)`. -/
def handleKeyMarkStart (s : StoreState) : StoreState :=
  setMoveStart s.currentFrame s

/-- The `disabled` condition of the Mark End button in `VideoPlayer.jsx`:
`disabled when moveStart === null`. -/
def markEndButtonDisabled (s : StoreState) : Bool :=
  s.moveStart.isNone

/-- The `handleNextMove` handler of `TaggingMode.jsx`: `setMode('define')`,
`setCurrentMove(null)`, `setFrameTags([])` in sequence. -/
def handleNextMove (s : StoreState) : StoreState :=
  setFrameTags [] (setCurrentMove none (setMode Mode.define s))

/-- The `handleFinish` handler of `ThankYouModal.jsx`: `setMode('define')`,
`setCurrentMove(null)`, `setFrameTags([])`, `setCurrentVideo(null)`. -/
def handleFinish (s : StoreState) : StoreState :=
  setCurrentVideo none (setFrameTags [] (setCurrentMove none (setMode Mode.define s)))

example : (handleNextMove { initialStore with mode := Mode.tagging }).mode = Mode.define := by
  decide

example : (setMoveEnd 5 { initialStore with moveStart := some 5 }).moveEnd = some 5 := by
  decide

/-- Error taxonomy of spec section 7. -/
inductive StoreError where
  | NotFound
  | RangeInvalid
  | FrameOutOfRange
  | UnknownMoveType
  | UnknownTagType
  | SchemaMismatch
  | EmptyLocations
deriving DecidableEq, Repr

/-- Modelled from the spec: the move-type question registry of section 6
(the external `MOVE_TYPES` / `MOVE_TYPE_QUESTIONS` tables of the missing
backend `src/labeling/models.py`). -/
structure MoveTypeRegistry where
  move_types : List String
  questions : List (String × List (String × QuestionDef))
deriving DecidableEq, Repr

/-- Registered questions for a move type; an absent entry means no
contextual questions. -/
def questionsFor (reg : MoveTypeRegistry) (mt : String) : List (String × QuestionDef) :=
  match reg.questions.find? (fun p => p.1 == mt) with
  | none => []
  | some p => p.2

/-- Check of a contextual-data mapping against the registered question
schema (spec section 4.1: keys and values must match the move type's
schema, single-choice versus multi-select per the question's flag). -/
def ctxOk (qs : List (String × QuestionDef)) (cd : List (String × CtxValue)) : Bool :=
  cd.all fun p =>
    match qs.find? (fun q => q.1 == p.1) with
    | none => false
    | some q =>
      match p.2 with
      | CtxValue.single c => !q.2.multi_select && q.2.options.contains c
      | CtxValue.multi cs => q.2.multi_select && cs.all q.2.options.contains

/-- Modelled from the spec: the durable record of Videos, Moves and
FrameTags of section 4.1 (the missing backend `src/labeling/database.py`),
with sequential identifier counters standing for SQLite rowids. -/
structure AnnotationStore where
  videos : List Video
  moves : List Move
  frame_tags : List FrameTag
  next_move_id : Nat
  next_tag_id : Nat
deriving DecidableEq, Repr

/-- Lookup of a video by identifier. -/
def findVideo (s : AnnotationStore) (vid : Nat) : Option Video :=
  s.videos.find? (fun v => v.id == vid)

/-- Modelled from the spec: `create_move` of section 4.1 (backend
`src/labeling/database.py` is missing from the snapshot). Fails with
`RangeInvalid` if `frame_start ≥ frame_end` or either bound is outside
`[0, video.total_frames]`, with `UnknownMoveType` for an unregistered
move type, with `SchemaMismatch` for contextual data off the registered
schema; on success persists and returns the Move with the millisecond
timestamps `frame / fps * 1000` and `frame_tag_count = 0`. -/
def create_move (reg : MoveTypeRegistry) (s : AnnotationStore) (video_id : Nat)
    (frame_start frame_end : Int) (move_type : String)
    (form_quality effort_level : Nat) (contextual_data : List (String × CtxValue))
    (tags : List String) (description : String) :
    Except StoreError (AnnotationStore × Move) :=
  match findVideo s video_id with
  | none => Except.error StoreError.NotFound
  | some v =>
    if frame_end ≤ frame_start ∨ frame_start < 0 ∨ (v.total_frames : Int) < frame_start ∨
        frame_end < 0 ∨ (v.total_frames : Int) < frame_end then
      Except.error StoreError.RangeInvalid
    else if move_type ∉ reg.move_types then
      Except.error StoreError.UnknownMoveType
    else if ctxOk (questionsFor reg move_type) contextual_data = false then
      Except.error StoreError.SchemaMismatch
    else
      let m : Move :=
        { id := s.next_move_id
          video_id := video_id
          frame_start := frame_start
          frame_end := frame_end
          timestamp_start_ms := (frame_start : ℚ) / v.fps * 1000
          timestamp_end_ms := (frame_end : ℚ) / v.fps * 1000
          move_type := move_type
          form_quality := form_quality
          effort_level := effort_level
          contextual_data := contextual_data
          tags := tags
          description := description
          labeled_at := ""
          frame_tag_count := 0 }
      Except.ok ({ s with moves := s.moves ++ [m], next_move_id := s.next_move_id + 1 }, m)

/-- Modelled from the spec: `delete_move` of section 4.1 (backend
`src/labeling/database.py` is missing from the snapshot). Deletes the
Move and, in the same atomic step, every FrameTag owned by it; fails with
`NotFound` when the Move does not exist, leaving the store untouched. -/
def delete_move (s : AnnotationStore) (move_id : Nat) : Except StoreError AnnotationStore :=
  if s.moves.any (fun m => m.id == move_id) then
    Except.ok
      { s with
        moves := s.moves.filter (fun m => m.id != move_id)
        frame_tags := s.frame_tags.filter (fun t => t.move_id != move_id) }
  else
    Except.error StoreError.NotFound

/-- Modelled from the spec: `list_moves` of section 4.1 — the video's
Moves ordered by `frame_start` ascending; an empty list is a valid
result. -/
def list_moves (s : AnnotationStore) (vid : Nat) : List Move :=
  List.insertionSort movesLe (s.moves.filter (fun m => m.video_id == vid))

/-- Modelled from the spec: `list_frame_tags` of section 4.1 — the Move's
FrameTags ordered by `frame_number` ascending; an empty list is a valid
result. -/
def list_frame_tags (s : AnnotationStore) (mid : Nat) : List FrameTag :=
  List.insertionSort tagsLe (s.frame_tags.filter (fun t => t.move_id == mid))

/-- Empty annotation store. -/
def emptyStore : AnnotationStore where
  videos := []
  moves := []
  frame_tags := []
  next_move_id := 1
  next_tag_id := 1

/-- Range invariant of one Move against its owning Video (spec section 3:
`0 ≤ frame_start < frame_end ≤ video.total_frames`). -/
def moveOkFor (v : Video) (m : Move) : Prop :=
  0 ≤ m.frame_start ∧ m.frame_start < m.frame_end ∧ m.frame_end ≤ (v.total_frames : Int)

/-- Store-wide form of the range invariant: every persisted Move satisfies
it against its owning Video. -/
def storeRangeInv (s : AnnotationStore) : Prop :=
  ∀ m ∈ s.moves, ∀ v, findVideo s m.video_id = some v → moveOkFor v m

/-- One record of the raw per-frame measurement stream (spec section 6):
named measurement fields, optional fields possibly absent. -/
structure RawFrame where
  fields : List (String × String)
deriving DecidableEq, Repr

/-- Containment of a frame in a Move's range `[frame_start, frame_end]`
(spec section 4.3 step 2). -/
def coveredBy (m : Move) (f : Int) : Bool :=
  decide (m.frame_start ≤ f) && decide (f ≤ m.frame_end)

/-- Deterministic choice between two Moves covering the same frame (spec
section 4.3 step 4: the Move with the smaller `frame_start`, ties broken
by identifier). -/
def betterMove (a b : Move) : Move :=
  if b.frame_start < a.frame_start ∨ (b.frame_start = a.frame_start ∧ b.id < a.id) then b else a

/-- Modelled from the spec: the `frame_number → owning Move` index of
section 4.3 step 2, together with the overlap tie-break of step 4. -/
def moveForFrame (moves : List Move) (f : Int) : Option Move :=
  match moves.filter (fun m => coveredBy m f) with
  | [] => none
  | m :: ms => some (ms.foldl betterMove m)

/-- Deterministic choice between two FrameTags at the same frame (spec
section 4.3 step 3: first by creation order, identifiers being assigned
in creation order). -/
def earlierTag (a b : FrameTag) : FrameTag :=
  if b.id < a.id then b else a

/-- Modelled from the spec: the at-most-one FrameTag kept per frame of
section 4.3 step 3. -/
def tagForFrame (tags : List FrameTag) (f : Int) : Option FrameTag :=
  match tags.filter (fun t => t.frame_number == f) with
  | [] => none
  | t :: ts => some (ts.foldl earlierTag t)

/-- One export row (spec section 6: raw measurement columns together with
`move_id, move_type, form_quality, effort_level, tag_type, tag_level,
tag_locations, tag_note`). -/
structure ExportRow where
  frame_number : Nat
  fields : List (String × String)
  move_id : Option Nat
  move_type : Option String
  form_quality : Option Nat
  effort_level : Option Nat
  tag_type : Option String
  tag_level : Option Nat
  tag_locations : Option (List String)
  tag_note : Option String
deriving DecidableEq, Repr

/-- Row emitted for one frame (spec section 4.3 step 3). -/
def mergeRow (moves : List Move) (tags : List FrameTag) (i : Nat) (raw : RawFrame) : ExportRow :=
  let om := moveForFrame moves (i : Int)
  let ot := tagForFrame tags (i : Int)
  { frame_number := i
    fields := raw.fields
    move_id := om.map (fun m => m.id)
    move_type := om.map (fun m => m.move_type)
    form_quality := om.map (fun m => m.form_quality)
    effort_level := om.map (fun m => m.effort_level)
    tag_type := ot.map (fun t => t.tag_type)
    tag_level := ot.map (fun t => t.level)
    tag_locations := ot.map (fun t => t.locations)
    tag_note := ot.map (fun t => t.note) }

/-- Modelled from the spec: the MergeExporter of section 4.3 — one output
row per frame of the raw stream, in stream order, augmented with the Move
and at most one FrameTag applicable to that frame. -/
def mergeExport (stream : List RawFrame) (moves : List Move) (tags : List FrameTag) :
    List ExportRow :=
  stream.enum.map (fun p => mergeRow moves tags p.1 p.2)

/-- Serialization of an optional text column: empty string when unset
(spec section 6). -/
def cellS (o : Option String) : String :=
  o.getD ""

/-- Serialization of an optional numeric column: empty string when unset. -/
def cellN (o : Option Nat) : String :=
  (o.map toString).getD ""

/-- Serialization of an optional body-location list column. -/
def cellLocs (o : Option (List String)) : String :=
  (o.map (String.intercalate ";")).getD ""

/-- One serialized artifact line for a row. -/
def serializeRow (r : ExportRow) : String :=
  String.intercalate ","
    ([toString r.frame_number] ++ r.fields.map (fun p => p.2) ++
      [cellN r.move_id, cellS r.move_type, cellN r.form_quality, cellN r.effort_level,
        cellS r.tag_type, cellN r.tag_level, cellLocs r.tag_locations, cellS r.tag_note])

/-- Serialized export artifact: rows in frame order, one line per row. -/
def serializeExport (rows : List ExportRow) : String :=
  String.intercalate "\n" (rows.map serializeRow)

/-- FrameTags belonging to the Moves of one video. -/
def videoFrameTags (s : AnnotationStore) (vid : Nat) : List FrameTag :=
  s.frame_tags.filter (fun t => s.moves.any (fun m => m.id == t.move_id && m.video_id == vid))

/-- Modelled from the spec: the world the ExportCoordinator of section 4.4
acts on — the raw measurement stream, the database records, the presence
of the source video file and the export artifact location. -/
structure ExportState where
  raw_stream : List RawFrame
  store : AnnotationStore
  source_present : Bool
  artifact : Option String
deriving DecidableEq, Repr

/-- Outcome reported by one export run (spec sections 4.4 and 7):
merge or write failure aborts, a deletion failure after a successful
write is a warning, not a failure. -/
inductive ExportOutcome where
  | mergeFailed
  | writeFailed
  | success (videoDeleted : Bool) (deletionFailed : Bool)
deriving DecidableEq, Repr

/-- Artifact content the merge step computes for a video in a given
world state. -/
def exportArtifact (vid : Nat) (st : ExportState) : String :=
  serializeExport (mergeExport st.raw_stream (list_moves st.store vid) (videoFrameTags st.store vid))

/-- Modelled from the spec: the ExportCoordinator of section 4.4 — run the
merge, persist the artifact, then, only if both succeeded and deletion was
requested, remove the source video file; `mergeFails`, `writeFails` and
`deleteFails` are the environment's I/O outcomes. A failed write removes
the partial artifact; the raw stream and the database records are never
touched. -/
def runExport (vid : Nat) (deleteRequested mergeFails writeFails deleteFails : Bool)
    (st : ExportState) : ExportState × ExportOutcome :=
  if mergeFails then
    (st, ExportOutcome.mergeFailed)
  else
    let content := exportArtifact vid st
    if writeFails then
      ({ st with artifact := none }, ExportOutcome.writeFailed)
    else
      let st1 := { st with artifact := some content }
      if deleteRequested then
        if deleteFails then (st1, ExportOutcome.success false true)
        else ({ st1 with source_present := false }, ExportOutcome.success true false)
      else
        (st1, ExportOutcome.success false false)

/-- Payload built by `handleSubmit` in `MoveForm.jsx` for `POST /api/moves`. -/
structure MoveData where
  video_id : Nat
  frame_start : Int
  frame_end : Int
  timestamp_start_ms : ℚ
  timestamp_end_ms : ℚ
  move_type : String
  form_quality : Nat
  effort_level : Nat
  contextual_data : List (String × CtxValue)
  tags : List String
  description : String
deriving DecidableEq, Repr

/-- The `handleSubmit` handler of `MoveForm.jsx`: rejects when the video or
either boundary is unset, otherwise builds the request payload with the
millisecond timestamps `(frame / fps) * 1000`. -/
def handleSubmit (currentVideo : Option Video) (moveStart moveEnd : Option Int)
    (moveType : String) (formQuality effortLevel : Nat)
    (contextualData : List (String × CtxValue)) (tags : List String)
    (description : String) : Option MoveData :=
  match currentVideo, moveStart, moveEnd with
  | some v, some ms, some me =>
    some
      { video_id := v.id
        frame_start := ms
        frame_end := me
        timestamp_start_ms := (ms : ℚ) / v.fps * 1000
        timestamp_end_ms := (me : ℚ) / v.fps * 1000
        move_type := moveType
        form_quality := formQuality
        effort_level := effortLevel
        contextual_data := contextualData
        tags := tags
        description := description }
  | _, _, _ => none

/-- One entry of the `TAG_TYPES` table in `TaggingMode.jsx`. -/
structure TagTypeDef where
  id : String
  label : String
  color : String
  emoji : String
deriving DecidableEq, Repr

/-- Payload built by `handleSaveTag` in `TaggingMode.jsx` for
`POST /api/frame-tags`. -/
structure FrameTagData where
  move_id : Nat
  frame_number : Int
  timestamp_ms : ℚ
  tag_type : String
  level : Nat
  locations : List String
  note : String
deriving DecidableEq, Repr

/-- The `handleSaveTag` handler of `TaggingMode.jsx`: rejects when no body
part is selected (the empty string, JavaScript falsy), otherwise builds
the tag payload whose `locations` is the one-element list holding the
selected body part. -/
def handleSaveTag (currentMove : Move) (currentFrame : Int) (fps : ℚ)
    (selectedTagType : TagTypeDef) (selectedBodyPart : String)
    (intensity : Nat) (note : String) : Option FrameTagData :=
  if selectedBodyPart = "" then none
  else
    some
      { move_id := currentMove.id
        frame_number := currentFrame
        timestamp_ms := (currentFrame : ℚ) / fps * 1000
        tag_type := selectedTagType.id
        level := intensity
        locations := [selectedBodyPart]
        note := note.trim }

/-- The `disabled` condition of the Save Tag button in `TaggingMode.jsx`:
`loading || !selectedBodyPart`. -/
def saveTagButtonDisabled (loading : Bool) (selectedBodyPart : String) : Bool :=
  loading || selectedBodyPart == ""

/-- UI state of the Define-mode screen in `App.jsx`: the thank-you modal
flag, the exporting flag, and the browser console log. -/
structure DefineModeUi where
  showThankYou : Bool
  exporting : Bool
  consoleLog : List String
deriving DecidableEq, Repr

/-- The `handleDone` handler of `App.jsx`: sets `exporting`, awaits
`exportVideo`, shows the thank-you modal whether the call resolved or
rejected (a rejection is only written to the console), and clears
`exporting` in the `finally` block. -/
def handleDone (result : Except String Unit) (ui : DefineModeUi) : DefineModeUi :=
  let u1 := { ui with exporting := true }
  match result with
  | Except.ok _ => { u1 with showThankYou := true, exporting := false }
  | Except.error e =>
    { u1 with consoleLog := u1.consoleLog ++ [e], showThankYou := true, exporting := false }

/-- User-visible projection of the Define-mode UI state (the console log
is not shown in the interface). -/
def uiVisible (u : DefineModeUi) : Bool × Bool :=
  (u.showThankYou, u.exporting)

/-- Sample video: `fps = 10`, `total_frames = 10` (the section 8 scenario). -/
def v0 : Video where
  id := 1
  filename := "climb.mov"
  path := "videos/climb.mov"
  csv_path := "data/climb.csv"
  fps := 10
  total_frames := 10
  duration_ms := 1000
  uploaded_at := ""

/-- Sample registry with one move type and no contextual questions. -/
def reg0 : MoveTypeRegistry where
  move_types := ["static"]
  questions := []

/-- Sample store holding only the sample video. -/
def store0 : AnnotationStore where
  videos := [v0]
  moves := []
  frame_tags := []
  next_move_id := 1
  next_tag_id := 1

/-- The Move `create_move` produces for frames 2 to 5 of the sample video. -/
def mC6 : Move where
  id := 1
  video_id := 1
  frame_start := 2
  frame_end := 5
  timestamp_start_ms := ((2 : Int) : ℚ) / v0.fps * 1000
  timestamp_end_ms := ((5 : Int) : ℚ) / v0.fps * 1000
  move_type := "static"
  form_quality := 3
  effort_level := 5
  contextual_data := []
  tags := []
  description := ""
  labeled_at := ""
  frame_tag_count := 0

/-- The store after persisting `mC6` into `store0`. -/
def store0created : AnnotationStore where
  videos := [v0]
  moves := [mC6]
  frame_tags := []
  next_move_id := 2
  next_tag_id := 1

/-- Sample persisted Move used by the cascade-delete witness. -/
def mA : Move where
  id := 1
  video_id := 1
  frame_start := 2
  frame_end := 5
  timestamp_start_ms := 200
  timestamp_end_ms := 500
  move_type := "static"
  form_quality := 4
  effort_level := 7
  contextual_data := []
  tags := []
  description := ""
  labeled_at := ""
  frame_tag_count := 2

/-- Sample FrameTag owned by `mA`. -/
def tA1 : FrameTag where
  id := 1
  move_id := 1
  frame_number := 3
  timestamp_ms := 300
  tag_type := "weak"
  level := 4
  locations := ["Left Knee"]
  note := ""
  tagged_at := ""

/-- Second sample FrameTag owned by `mA`. -/
def tA2 : FrameTag where
  id := 2
  move_id := 1
  frame_number := 4
  timestamp_ms := 400
  tag_type := "pumped"
  level := 6
  locations := ["Right Elbow"]
  note := ""
  tagged_at := ""

/-- Sample store with one Move owning two FrameTags. -/
def storeC2 : AnnotationStore where
  videos := [v0]
  moves := [mA]
  frame_tags := [tA1, tA2]
  next_move_id := 2
  next_tag_id := 3

/-- The store after `delete_move storeC2 1`. -/
def storeC2del : AnnotationStore where
  videos := [v0]
  moves := []
  frame_tags := []
  next_move_id := 2
  next_tag_id := 3

/-- Session state with a selection start marked at frame 5. -/
def sessionWithStart5 : StoreState :=
  { initialStore with moveStart := some 5 }

/-- Sample tag-type entry (`weak` row of `TAG_TYPES` in `TaggingMode.jsx`). -/
def ttW : TagTypeDef where
  id := "weak"
  label := "Weak"
  color := "#6b7280"
  emoji := "."

/-- The payload `handleSaveTag` builds at frame 3 for body part Left Knee. -/
def tagW : FrameTagData where
  move_id := mA.id
  frame_number := 3
  timestamp_ms := ((3 : Int) : ℚ) / (10 : ℚ) * 1000
  tag_type := ttW.id
  level := 4
  locations := ["Left Knee"]
  note := "hi".trim

/-- Shape of a successful `create_move`: the video exists, the range guard
passed, and the returned Move and store are exactly the persisted forms. -/
theorem create_move_ok (reg : MoveTypeRegistry) (s : AnnotationStore) (vid : Nat)
    (fs fe : Int) (mt : String) (q e : Nat) (cd : List (String × CtxValue))
    (tg : List String) (d : String) (s' : AnnotationStore) (m : Move)
    (hok : create_move reg s vid fs fe mt q e cd tg d = Except.ok (s', m)) :
    ∃ v, findVideo s vid = some v ∧
      ¬(fe ≤ fs ∨ fs < 0 ∨ (v.total_frames : Int) < fs ∨ fe < 0 ∨
          (v.total_frames : Int) < fe) ∧
      m = { id := s.next_move_id, video_id := vid, frame_start := fs, frame_end := fe,
            timestamp_start_ms := (fs : ℚ) / v.fps * 1000,
            timestamp_end_ms := (fe : ℚ) / v.fps * 1000,
            move_type := mt, form_quality := q, effort_level := e,
            contextual_data := cd, tags := tg, description := d,
            labeled_at := "", frame_tag_count := 0 } ∧
      s' = { s with moves := s.moves ++ [m], next_move_id := s.next_move_id + 1 } := by
  unfold create_move at hok
  split at hok
  · exact absurd hok (by simp)
  · rename_i v hfind
    split at hok
    · exact absurd hok (by simp)
    · rename_i h1
      split at hok
      · exact absurd hok (by simp)
      · split at hok
        · exact absurd hok (by simp)
        · simp only [Except.ok.injEq, Prod.mk.injEq] at hok
          obtain ⟨hs, hm⟩ := hok
          refine ⟨v, hfind, h1, hm.symm, ?_⟩
          rw [← hm]
          exact hs.symm

/-- Filtering for a key immediately after filtering it away gives nothing. -/
theorem filter_ne_filter_eq (l : List FrameTag) (mid : Nat) :
    (l.filter (fun t => t.move_id != mid)).filter (fun t => t.move_id == mid) = [] := by
  rw [List.filter_filter]
  simp [bne]

/-- C1: `create_move` fails with `RangeInvalid` whenever
`frame_start ≥ frame_end` or either bound lies outside
`[0, video.total_frames]` (in particular for `frame_start = frame_end`),
and a successful `create_move` preserves the store-wide range invariant,
so no Move violating `0 ≤ frame_start < frame_end ≤ video.total_frames`
is ever persisted. -/
theorem claimC1 :
    (∀ (reg : MoveTypeRegistry) (s : AnnotationStore) (vid : Nat) (fs fe : Int)
        (mt : String) (q e : Nat) (cd : List (String × CtxValue)) (tg : List String)
        (d : String) (v : Video),
      findVideo s vid = some v →
      (fe ≤ fs ∨ fs < 0 ∨ (v.total_frames : Int) < fs ∨ fe < 0 ∨
        (v.total_frames : Int) < fe) →
      create_move reg s vid fs fe mt q e cd tg d = Except.error StoreError.RangeInvalid) ∧
    (∀ (reg : MoveTypeRegistry) (s : AnnotationStore) (vid : Nat) (fs fe : Int)
        (mt : String) (q e : Nat) (cd : List (String × CtxValue)) (tg : List String)
        (d : String) (s' : AnnotationStore) (m : Move),
      create_move reg s vid fs fe mt q e cd tg d = Except.ok (s', m) →
      storeRangeInv s → storeRangeInv s') := by
  constructor
  · intro reg s vid fs fe mt q e cd tg d v hfind hbad
    unfold create_move
    rw [hfind]
    exact if_pos hbad
  · intro reg s vid fs fe mt q e cd tg d s' m hok hinv
    obtain ⟨v, hfind, hguard, hm, hs'⟩ :=
      create_move_ok reg s vid fs fe mt q e cd tg d s' m hok
    push_neg at hguard
    obtain ⟨hlt, hge0, _, _, hle⟩ := hguard
    subst hs'
    intro m' hm' v' hfind'
    have hfv : findVideo
        { s with moves := s.moves ++ [m], next_move_id := s.next_move_id + 1 }
          m'.video_id = findVideo s m'.video_id := rfl
    rw [hfv] at hfind'
    rcases List.mem_append.mp hm' with hold | hnew
    · exact hinv m' hold v' hfind'
    · have hm'm : m' = m := List.mem_singleton.mp hnew
      subst hm'm
      subst hm
      have hsv : findVideo s vid = some v' := hfind'
      rw [hfind] at hsv
      have hv : v = v' := Option.some.inj hsv
      subst hv
      exact ⟨hge0, hlt, hle⟩

/-- C1 witness: on the sample store, creating a Move with
`frame_start = frame_end = 5` fails with `RangeInvalid`, and the store
produced by a valid creation satisfies the range invariant. -/
theorem claimC1_witness :
    create_move reg0 store0 1 5 5 "static" 3 5 [] [] "" =
      Except.error StoreError.RangeInvalid ∧
    storeRangeInv store0created :=
  ⟨claimC1.1 reg0 store0 1 5 5 "static" 3 5 [] [] "" v0 rfl (Or.inl le_rfl),
   claimC1.2 reg0 store0 1 2 5 "static" 3 5 [] [] "" store0created mC6 rfl
     (by intro m hm; exact absurd hm (by simp [store0]))⟩

/-- C2: `delete_move` fails with `NotFound` when the Move does not exist;
on success it removes, in one atomic step, exactly the Move and every
FrameTag owned by it, touches nothing else, and afterwards no FrameTag of
the deleted Move is returned by `list_frame_tags` (cascade completeness). -/
theorem claimC2 :
    (∀ (s : AnnotationStore) (mid : Nat),
      (∀ m ∈ s.moves, m.id ≠ mid) →
      delete_move s mid = Except.error StoreError.NotFound) ∧
    (∀ (s : AnnotationStore) (mid : Nat) (s' : AnnotationStore),
      delete_move s mid = Except.ok s' →
      s'.moves = s.moves.filter (fun m => m.id != mid) ∧
      s'.frame_tags = s.frame_tags.filter (fun t => t.move_id != mid) ∧
      s'.videos = s.videos ∧
      (∀ t ∈ s'.frame_tags, t.move_id ≠ mid) ∧
      list_frame_tags s' mid = []) := by
  constructor
  · intro s mid h
    unfold delete_move
    rw [if_neg]
    simp only [List.any_eq_true, beq_iff_eq]
    push_neg
    exact h
  · intro s mid s' hok
    unfold delete_move at hok
    by_cases hany : s.moves.any (fun m => m.id == mid) = true
    · rw [if_pos hany] at hok
      simp only [Except.ok.injEq] at hok
      subst hok
      refine ⟨rfl, rfl, rfl, ?_, ?_⟩
      · intro t ht
        have := List.mem_filter.mp ht
        simpa [bne_iff_ne] using this.2
      · unfold list_frame_tags
        rw [show ({ s with
              moves := s.moves.filter (fun m => m.id != mid),
              frame_tags := s.frame_tags.filter (fun t => t.move_id != mid)
            } : AnnotationStore).frame_tags =
            s.frame_tags.filter (fun t => t.move_id != mid) from rfl]
        rw [filter_ne_filter_eq]
        rfl
    · rw [if_neg hany] at hok
      exact absurd hok (by simp)

/-- C2 witness: deleting from the empty store reports `NotFound`, and
after deleting the sample Move (which owned two FrameTags) listing its
tags returns the empty collection. -/
theorem claimC2_witness :
    delete_move emptyStore 1 = Except.error StoreError.NotFound ∧
    list_frame_tags storeC2del 1 = [] :=
  ⟨claimC2.1 emptyStore 1 (by intro m hm; exact absurd hm (by simp [emptyStore])),
   (claimC2.2 storeC2 1 storeC2del rfl).2.2.2.2⟩

/-- C3 counterexample: with the selection start marked at frame 5,
`setMoveEnd 5` (markEnd with `frame = start`, which the claim says is
rejected with no state change) is accepted and changes the session state,
recording `moveEnd = 5`. -/
theorem claimC3_counterexample :
    sessionWithStart5.moveStart = some 5 ∧
    setMoveEnd 5 sessionWithStart5 ≠ sessionWithStart5 ∧
    (setMoveEnd 5 sessionWithStart5).moveEnd = some 5 := by
  refine ⟨rfl, ?_, rfl⟩
  intro h
  have := congrArg StoreState.moveEnd h
  simp [setMoveEnd, sessionWithStart5, initialStore] at this

/-- C3 amended: `setMoveEnd(frame)` records the frame as the selection end
unconditionally — there is no `frame > start` validation and no clamping,
so an end at or before the start is accepted — leaving the rest of the
session unchanged; the `']'` key invokes it in every state, and the only
guard in the interface is the Mark End button being disabled while no
start is marked. -/
theorem claimC3 : ∀ (s : StoreState) (f : Int),
    (setMoveEnd f s).moveEnd = some f ∧
    (setMoveEnd f s).moveStart = s.moveStart ∧
    (setMoveEnd f s).mode = s.mode ∧
    (setMoveEnd f s).currentFrame = s.currentFrame ∧
    (setMoveEnd f s).frameTags = s.frameTags ∧
    handleKeyMarkEnd s = setMoveEnd s.currentFrame s ∧
    markEndButtonDisabled s = s.moveStart.isNone := by
  intro s f
  exact ⟨rfl, rfl, rfl, rfl, rfl, rfl, rfl⟩

/-- C4: the merge-export is a pure function of the raw per-frame stream
and the stored Moves/FrameTags — an export run leaves those inputs
untouched, a successful run writes exactly the merged artifact, and
re-running on the unchanged state reproduces the identical artifact
content (idempotence/determinism). -/
theorem claimC4 : ∀ (vid : Nat) (dr mf wf df : Bool) (st : ExportState),
    exportArtifact vid ((runExport vid dr mf wf df st).1) = exportArtifact vid st ∧
    (runExport vid dr false false df st).1.artifact = some (exportArtifact vid st) ∧
    (runExport vid dr false false df ((runExport vid dr false false df st).1)).1.artifact =
      (runExport vid dr false false df st).1.artifact := by
  intro vid dr mf wf df st
  refine ⟨?_, ?_, ?_⟩ <;>
    cases dr <;> cases mf <;> cases wf <;> cases df <;>
      simp [runExport, exportArtifact]

/-- C5: in every execution of the export operation, the source video file
ends up removed only when the merge and the artifact write both succeeded,
deletion was requested (and the deletion itself did not fail); the raw
measurement stream and the database records are never changed by export. -/
theorem claimC5 : ∀ (vid : Nat) (dr mf wf df : Bool) (st : ExportState),
    (runExport vid dr mf wf df st).1.raw_stream = st.raw_stream ∧
    (runExport vid dr mf wf df st).1.store = st.store ∧
    (runExport vid dr mf wf df st).1.source_present =
      (if mf = false ∧ wf = false ∧ dr = true ∧ df = false then false
        else st.source_present) := by
  intro vid dr mf wf df st
  cases dr <;> cases mf <;> cases wf <;> cases df <;> simp [runExport]

/-- C6: the Move returned by a successful `create_move` carries the
requested frame bounds, the derived timestamps
`frame / fps * 1000` computed from the owning Video's `fps`, and
`frame_tag_count = 0`. -/
theorem claimC6 : ∀ (reg : MoveTypeRegistry) (s : AnnotationStore) (vid : Nat)
    (fs fe : Int) (mt : String) (q e : Nat) (cd : List (String × CtxValue))
    (tg : List String) (d : String) (s' : AnnotationStore) (m : Move) (v : Video),
    create_move reg s vid fs fe mt q e cd tg d = Except.ok (s', m) →
    findVideo s vid = some v →
    m.frame_start = fs ∧ m.frame_end = fe ∧
    m.timestamp_start_ms = (m.frame_start : ℚ) / v.fps * 1000 ∧
    m.timestamp_end_ms = (m.frame_end : ℚ) / v.fps * 1000 ∧
    m.frame_tag_count = 0 := by
  intro reg s vid fs fe mt q e cd tg d s' m v hok hfind
  obtain ⟨v', hfind', _, hm, _⟩ :=
    create_move_ok reg s vid fs fe mt q e cd tg d s' m hok
  rw [hfind] at hfind'
  have hv : v = v' := Option.some.inj hfind'
  subst hv
  subst hm
  exact ⟨rfl, rfl, rfl, rfl, rfl⟩

/-- C6 witness: the Move created for frames 2 to 5 of the sample video
(`fps = 10`) carries the formula timestamps and zero frame tags. -/
theorem claimC6_witness :
    mC6.frame_start = 2 ∧ mC6.frame_end = 5 ∧
    mC6.timestamp_start_ms = (mC6.frame_start : ℚ) / v0.fps * 1000 ∧
    mC6.timestamp_end_ms = (mC6.frame_end : ℚ) / v0.fps * 1000 ∧
    mC6.frame_tag_count = 0 :=
  claimC6 reg0 store0 1 2 5 "static" 3 5 [] [] "" store0created mC6 v0 rfl rfl

/-- C7: the tagging-to-define mode switch is available from every session
state and always clears the active Move and the loaded FrameTags — both
through Save and Next Move (`handleNextMove` in `TaggingMode.jsx`) and
through the thank-you modal (`handleFinish` in `ThankYouModal.jsx`). -/
theorem claimC7 : ∀ s : StoreState,
    ((handleNextMove s).mode = Mode.define ∧ (handleNextMove s).currentMove = none ∧
      (handleNextMove s).frameTags = []) ∧
    ((handleFinish s).mode = Mode.define ∧ (handleFinish s).currentMove = none ∧
      (handleFinish s).frameTags = [] ∧ (handleFinish s).currentVideo = none) := by
  intro s
  exact ⟨⟨rfl, rfl, rfl⟩, rfl, rfl, rfl, rfl⟩

/-- C8: `list_moves` returns the video's Moves ordered by `frame_start`
ascending and `list_frame_tags` the Move's FrameTags ordered by
`frame_number` ascending, in every store state; the empty collection is a
valid result; the frontend's `addFrameTag` keeps its list sorted the same
way. -/
theorem claimC8 :
    (∀ (s : AnnotationStore) (vid : Nat), List.Sorted movesLe (list_moves s vid)) ∧
    (∀ (s : AnnotationStore) (vid : Nat),
      List.Perm (list_moves s vid) (s.moves.filter (fun m => m.video_id == vid))) ∧
    (∀ (s : AnnotationStore) (mid : Nat), List.Sorted tagsLe (list_frame_tags s mid)) ∧
    (∀ (s : AnnotationStore) (mid : Nat),
      List.Perm (list_frame_tags s mid)
        (s.frame_tags.filter (fun t => t.move_id == mid))) ∧
    list_moves emptyStore 0 = [] ∧
    list_frame_tags emptyStore 0 = [] ∧
    (∀ (t : FrameTag) (s : StoreState),
      List.Sorted tagsLe ((addFrameTag t s).frameTags)) :=
  ⟨fun s vid => List.sorted_insertionSort movesLe (s.moves.filter (fun m => m.video_id == vid)),
   fun s vid => List.perm_insertionSort movesLe (s.moves.filter (fun m => m.video_id == vid)),
   fun s mid => List.sorted_insertionSort tagsLe (s.frame_tags.filter (fun t => t.move_id == mid)),
   fun s mid => List.perm_insertionSort tagsLe (s.frame_tags.filter (fun t => t.move_id == mid)),
   rfl, rfl,
   fun t s => List.sorted_insertionSort tagsLe (s.frameTags ++ [t])⟩

/-- C9: in the Define-mode Done flow, whatever `exportVideo` returns —
resolution or rejection — `handleDone` shows the thank-you modal and ends
the exporting state, the user-visible outcome is identical for any two
results, and a rejection is only appended to the console log. -/
theorem claimC9 : ∀ (r : Except String Unit) (ui : DefineModeUi),
    (handleDone r ui).showThankYou = true ∧
    (handleDone r ui).exporting = false ∧
    (∀ r2 : Except String Unit, uiVisible (handleDone r ui) = uiVisible (handleDone r2 ui)) ∧
    (∀ e : String, (handleDone (Except.error e) ui).consoleLog = ui.consoleLog ++ [e]) ∧
    (handleDone (Except.ok ()) ui).consoleLog = ui.consoleLog := by
  intro r ui
  refine ⟨?_, ?_, ?_, fun e => rfl, rfl⟩
  · cases r <;> rfl
  · cases r <;> rfl
  · intro r2
    cases r <;> cases r2 <;> rfl

/-- C10: a FrameTag saved through the tagging interface carries exactly one
body-location label — `handleSaveTag` rejects the save while no body part
is selected (and the Save Tag button is disabled then), and every payload
it builds has `locations` equal to the one-element list holding the
selected body part. -/
theorem claimC10 :
    (∀ (mv : Move) (cf : Int) (fps : ℚ) (tt : TagTypeDef) (bp : String)
        (i : Nat) (n : String) (t : FrameTagData),
      handleSaveTag mv cf fps tt bp i n = some t →
      t.locations = [bp] ∧ t.locations.length = 1) ∧
    (∀ (mv : Move) (cf : Int) (fps : ℚ) (tt : TagTypeDef) (i : Nat) (n : String),
      handleSaveTag mv cf fps tt "" i n = none) ∧
    (∀ loading : Bool, saveTagButtonDisabled loading "" = true) := by
  refine ⟨?_, ?_, ?_⟩
  · intro mv cf fps tt bp i n t h
    unfold handleSaveTag at h
    by_cases hbp : bp = ""
    · rw [if_pos hbp] at h
      exact absurd h (by simp)
    · rw [if_neg hbp] at h
      have ht := Option.some.inj h
      subst ht
      exact ⟨rfl, rfl⟩
  · intro mv cf fps tt i n
    unfold handleSaveTag
    rw [if_pos rfl]
  · intro loading
    cases loading <;> rfl

/-- C10 witness: saving the `weak` tag at frame 3 with body part
Left Knee produces a payload whose `locations` is exactly the one-element
list holding Left Knee. -/
theorem claimC10_witness :
    tagW.locations = ["Left Knee"] ∧ tagW.locations.length = 1 :=
  claimC10.1 mA 3 10 ttW "Left Knee" 4 "hi" tagW rfl
